import Mathlib

/-!
Shallow embedding of the identity and session subsystem of the FortAS-AI
repository (`src/services/authService.ts`, types from `src/types/index.ts`).

Modelling conventions:
- A JavaScript `Map` is an insertion-ordered association list: `set` replaces
  the value in place when the key is present and appends otherwise, `values()`
  iterates in insertion order.
- JavaScript object references are modelled with an explicit heap
  (`List (Nat × StoredUser)` plus a fresh-reference counter): the `users` map
  stores references, and in-place mutation (`Object.assign`,
  `user.hashedPassword = ...`) writes through the reference, so that aliased
  map entries observe the mutation exactly as in the source.
- `localStorage` is the `storedUsers` / `storedToken` components of the state.
- `Date.now()`, `Math.random()` and the SHA-256 digest of the Web Crypto API
  are external inputs: operations take the current time, the random draw and
  the digest function `sha : String → String` as explicit parameters.
- A thrown JavaScript exception is the `Outcome.thrown` constructor; a normal
  return is `Outcome.value`.
-/

namespace FortAS

/-- Membership tier of a user (`'Free' | 'Premium'` in `types/index.ts`). -/
inductive MembershipType where
  | Free
  | Premium
deriving DecidableEq

/-- Purpose tag of an OTP (`'register' | 'login' | 'reset'`). -/
inductive OTPType where
  | register
  | login
  | reset
deriving DecidableEq

/-- Activity counters carried by a user record. -/
structure ActivityStats where
  totalChats : Nat
  filesUploaded : Nat
  reportsGenerated : Nat
deriving DecidableEq

/-- The `User` interface of `types/index.ts`; dates are absolute timestamps
(milliseconds), `preferredRole` and `profilePicture` are plain strings when
present. -/
structure PublicUser where
  id : String
  fullName : String
  email : String
  mobile : String
  isAuthenticated : Bool
  registrationDate : Nat
  membershipType : MembershipType
  preferredRole : Option String
  profilePicture : Option String
  lastLoginDate : Option Nat
  activityStats : Option ActivityStats
deriving DecidableEq

/-- A stored user record: `User & { hashedPassword: string }`, the value type
of `AuthService.users`. -/
structure StoredUser extends PublicUser where
  hashedPassword : String
deriving DecidableEq

/-- The `RegisterData` interface. -/
structure RegisterData where
  fullName : String
  email : String
  mobile : String
  password : String
deriving DecidableEq

/-- The `LoginData` interface; note that it has no `rememberMe` field. -/
structure LoginData where
  emailOrMobile : String
  password : String
deriving DecidableEq

/-- The `PasswordResetData` interface. -/
structure PasswordResetData where
  email : String
  newPassword : String
  otp : String
deriving DecidableEq

/-- A `Partial<UserProfile>` argument of `updateProfile`: each field is
present (`some`) or absent (`none`); present fields are written over the
stored record by `Object.assign`. -/
structure ProfileUpdates where
  id : Option String := none
  fullName : Option String := none
  email : Option String := none
  mobile : Option String := none
  membershipType : Option MembershipType := none
  preferredRole : Option String := none
  profilePicture : Option String := none
  registrationDate : Option Nat := none
  lastLoginDate : Option Nat := none
  activityStats : Option ActivityStats := none
deriving DecidableEq

/-- An entry of `AuthService.otpStore`: `{ otp, expires, type }`. -/
structure OTPEntry where
  otp : String
  expires : Nat
  type : OTPType
deriving DecidableEq

/-- An entry of `AuthService.sessions`: `{ userId, expires }`. -/
structure SessionEntry where
  userId : String
  expires : Nat
deriving DecidableEq

/-- The `OTPResponse` interface returned by `sendOTP`. -/
structure OTPResponse where
  success : Bool
  message : String
  otpSent : Option Bool
  otp : Option String
deriving DecidableEq

/-- Result of an operation that can throw: `thrown msg` models a raised
JavaScript exception, `value v` a normal return. -/
inductive Outcome (α : Type) where
  | thrown (msg : String)
  | value (v : α)
deriving DecidableEq

/-- Whole-service state: the static maps of `AuthService` (with the object
heap backing `users`), plus the two `localStorage` slots. -/
structure ServiceState where
  heap : List (Nat × StoredUser)
  nextRef : Nat
  users : List (String × Nat)
  otpStore : List (String × OTPEntry)
  sessions : List (String × SessionEntry)
  storedUsers : List StoredUser
  storedToken : Option String
deriving DecidableEq

/-- Fresh service state: empty maps, empty storage. -/
def initState : ServiceState :=
  { heap := [], nextRef := 0, users := [], otpStore := [], sessions := [],
    storedUsers := [], storedToken := none }

/-- JavaScript `Map.prototype.get` on an insertion-ordered association list. -/
def mapGet {α : Type} (m : List (String × α)) (k : String) : Option α :=
  (m.find? (fun p => p.1 == k)).map (fun p => p.2)

/-- JavaScript `Map.prototype.has`. -/
def mapHas {α : Type} (m : List (String × α)) (k : String) : Bool :=
  (m.find? (fun p => p.1 == k)).isSome

/-- JavaScript `Map.prototype.set`: replace in place when the key exists,
append otherwise. -/
def mapSet {α : Type} (m : List (String × α)) (k : String) (v : α) :
    List (String × α) :=
  if mapHas m k then m.map (fun p => if p.1 == k then (k, v) else p)
  else m ++ [(k, v)]

/-- JavaScript `Map.prototype.delete` (result map only). -/
def mapDelete {α : Type} (m : List (String × α)) (k : String) :
    List (String × α) :=
  m.filter (fun p => !(p.1 == k))

/-- Dereference an object reference in the heap. -/
def heapGet (h : List (Nat × StoredUser)) (r : Nat) : Option StoredUser :=
  (h.find? (fun p => p.1 == r)).map (fun p => p.2)

/-- In-place mutation of the object behind a reference. -/
def heapSet (h : List (Nat × StoredUser)) (r : Nat) (u : StoredUser) :
    List (Nat × StoredUser) :=
  h.map (fun p => if p.1 == r then (r, u) else p)

/-- `PasswordUtils.hashPassword`: appends the static pepper
`'salt_key_2024'` and applies the external SHA-256 hex digest `sha`
(the Web Crypto call `crypto.subtle.digest` is an external collaborator,
threaded as a parameter). -/
def hashPassword (sha : String → String) (password : String) : String :=
  sha (password ++ "salt_key_2024")

/-- `PasswordUtils.verifyPassword`: hashes the candidate and compares with
the stored digest. -/
def verifyPassword (sha : String → String) (password hashedPassword : String) :
    Bool :=
  hashPassword sha password == hashedPassword

/-- `AuthService.generateOTP`: `Math.floor(100000 + Math.random() * 900000)`,
with the random draw supplied as a natural number (reduced into the
900000-wide range). -/
def generateOTP (rand : Nat) : String :=
  toString (100000 + rand % 900000)

/-- One step of `loadUsers`: parse one stored record into a fresh object and
bind both its email and mobile keys to it (`users.set(user.email, user);
users.set(user.mobile, user)`). -/
def loadOne (st : ServiceState) (u : StoredUser) : ServiceState :=
  { st with
    heap := st.heap ++ [(st.nextRef, u)],
    nextRef := st.nextRef + 1,
    users := mapSet (mapSet st.users u.email st.nextRef) u.mobile st.nextRef }

/-- `AuthService.loadUsers`: parse the persisted array and re-bind the keys of
every stored record; pre-existing map entries under other keys are left in
place. -/
def loadUsers (st : ServiceState) : ServiceState :=
  st.storedUsers.foldl loadOne st

/-- The dedup filter of `saveUsers`: keep the first record of each id. -/
def dedupById (l : List StoredUser) : List StoredUser :=
  l.foldl (fun acc u => if acc.any (fun v => v.id == u.id) then acc
                        else acc ++ [u]) []

/-- `AuthService.saveUsers`: serialize `users.values()` (dereferenced, in
insertion order), deduplicated by id, into storage. -/
def saveUsers (st : ServiceState) : ServiceState :=
  { st with
    storedUsers := dedupById (st.users.filterMap (fun p => heapGet st.heap p.2)) }

/-- The key-to-record view of the in-memory user map (each entry
dereferenced). -/
def usersView (st : ServiceState) : List (String × StoredUser) :=
  st.users.filterMap (fun p => (heapGet st.heap p.2).map (fun u => (p.1, u)))

/-- `AuthService.sendOTP`: store a fresh entry under the identifier alone
(expiry five minutes after `now`) and report success, echoing the code. -/
def sendOTP (st : ServiceState) (identifier : String) (type : OTPType)
    (now rand : Nat) : ServiceState × OTPResponse :=
  let otp := generateOTP rand
  let expires := now + 300000
  ({ st with otpStore := mapSet st.otpStore identifier ⟨otp, expires, type⟩ },
   { success := true, message := "OTP sent to " ++ identifier,
     otpSent := some true, otp := some otp })

/-- `AuthService.verifyOTP`: false on missing entry or purpose mismatch
(entry kept); on expiry the entry is deleted and false returned; on exact
code match the entry is deleted and true returned; otherwise false. -/
def verifyOTP (st : ServiceState) (identifier otp : String) (type : OTPType)
    (now : Nat) : ServiceState × Bool :=
  match mapGet st.otpStore identifier with
  | none => (st, false)
  | some stored =>
    if stored.type != type then (st, false)
    else if now > stored.expires then
      ({ st with otpStore := mapDelete st.otpStore identifier }, false)
    else if stored.otp == otp then
      ({ st with otpStore := mapDelete st.otpStore identifier }, true)
    else (st, false)

/-- The stored record built by `register` for request `d` at time `now`. -/
def regStored (sha : String → String) (d : RegisterData) (now : Nat) :
    StoredUser :=
  { id := "user_" ++ toString now, fullName := d.fullName, email := d.email,
    mobile := d.mobile, isAuthenticated := true, registrationDate := now,
    membershipType := MembershipType.Free, preferredRole := none,
    profilePicture := none, lastLoginDate := some now,
    activityStats := some ⟨0, 0, 0⟩,
    hashedPassword := hashPassword sha d.password }

/-- `AuthService.register`: reload, throw `Error('User already exists with
this email or mobile number')` when either key is taken, else build the user
(`id = 'user_' + Date.now()`, membership Free, zeroed stats), bind both keys
to the one stored object, persist, and return the digest-free `User`. -/
def register (sha : String → String) (st : ServiceState) (d : RegisterData)
    (now : Nat) : ServiceState × Outcome PublicUser :=
  let st := loadUsers st
  if mapHas st.users d.email || mapHas st.users d.mobile then
    (st, Outcome.thrown "User already exists with this email or mobile number")
  else
    let stored := regStored sha d now
    let r := st.nextRef
    let st := { st with
      heap := st.heap ++ [(r, stored)], nextRef := r + 1,
      users := mapSet (mapSet st.users d.email r) d.mobile r }
    let st := saveUsers st
    (st, Outcome.value stored.toPublicUser)

/-- The read-only projection returned by `login` / `updateProfile` /
`getCurrentUser`: every public field of the stored record, with
`isAuthenticated` forced to `true` and the digest dropped. -/
def projectUser (u : StoredUser) : PublicUser :=
  { u.toPublicUser with isAuthenticated := true }

/-- `AuthService.login`: reload, resolve the identifier (`null` when absent),
verify the password (`null` on mismatch); on success the source mutates
`lastLoginDate`, persists, generates a session token, and then evaluates
`const sessionExpiry = rememberMe ? ... : ...` — but `rememberMe` is not
declared anywhere in scope (`LoginData` has no such field and `login` takes
no such parameter), so evaluation throws `ReferenceError` at that point,
before `sessions.set` or the return of the user can run. -/
def login (sha : String → String) (st : ServiceState)
    (credentials : LoginData) (now : Nat) :
    ServiceState × Outcome (Option PublicUser) :=
  let st := loadUsers st
  match mapGet st.users credentials.emailOrMobile with
  | none => (st, Outcome.value none)
  | some r =>
    match heapGet st.heap r with
    | none => (st, Outcome.value none)
    | some user =>
      if !(verifyPassword sha credentials.password user.hashedPassword) then
        (st, Outcome.value none)
      else
        let user2 := { user with lastLoginDate := some now }
        let st := { st with heap := heapSet st.heap r user2 }
        let st := saveUsers st
        (st, Outcome.thrown "ReferenceError: rememberMe is not defined")

/-- `AuthService.resetPassword`: reload, `false` when the email does not
resolve, `false` when the reset-purpose OTP fails to verify (the verify
attempt may consume or lazily delete the entry), else overwrite the stored
digest in place and persist. -/
def resetPassword (sha : String → String) (st : ServiceState)
    (resetData : PasswordResetData) (now : Nat) : ServiceState × Bool :=
  let st := loadUsers st
  match mapGet st.users resetData.email with
  | none => (st, false)
  | some r =>
    match heapGet st.heap r with
    | none => (st, false)
    | some user =>
      let res := verifyOTP st resetData.email resetData.otp OTPType.reset now
      let st := res.1
      if !res.2 then (st, false)
      else
        let user2 := { user with
          hashedPassword := hashPassword sha resetData.newPassword }
        let st := { st with heap := heapSet st.heap r user2 }
        let st := saveUsers st
        (st, true)

/-- `Array.from(this.users.entries()).find(([_, user]) => user.id === userId)`:
the first map entry whose dereferenced record has the given id. -/
def findEntryById (st : ServiceState) (userId : String) :
    Option (String × Nat × StoredUser) :=
  st.users.findSome? (fun p =>
    match heapGet st.heap p.2 with
    | some u => if u.id == userId then some (p.1, p.2, u) else none
    | none => none)

/-- `Object.assign(user, updates)`: overwrite exactly the fields present in
the update object. -/
def applyUpdates (u : StoredUser) (p : ProfileUpdates) : StoredUser :=
  { u with
    id := p.id.getD u.id,
    fullName := p.fullName.getD u.fullName,
    email := p.email.getD u.email,
    mobile := p.mobile.getD u.mobile,
    membershipType := p.membershipType.getD u.membershipType,
    preferredRole := match p.preferredRole with
      | some v => some v
      | none => u.preferredRole,
    profilePicture := match p.profilePicture with
      | some v => some v
      | none => u.profilePicture,
    registrationDate := p.registrationDate.getD u.registrationDate,
    lastLoginDate := match p.lastLoginDate with
      | some v => some v
      | none => u.lastLoginDate,
    activityStats := match p.activityStats with
      | some v => some v
      | none => u.activityStats }

/-- `AuthService.updateProfile`: reload, find the first map entry with the
given id (`null` when none), mutate the shared object in place with
`Object.assign`, persist, and return the projection of the mutated record.
The map keys themselves are not touched. -/
def updateProfile (st : ServiceState) (userId : String)
    (updates : ProfileUpdates) : ServiceState × Option PublicUser :=
  let st := loadUsers st
  match findEntryById st userId with
  | none => (st, none)
  | some e =>
    let user2 := applyUpdates e.2.2 updates
    let st := { st with heap := heapSet st.heap e.2.1 user2 }
    let st := saveUsers st
    (st, some (projectUser user2))

/-- `AuthService.isSessionValid`: read the remembered token, look it up, and
require `Date.now() < session.expires`. -/
def isSessionValid (st : ServiceState) (now : Nat) : Bool :=
  match st.storedToken with
  | none => false
  | some tok =>
    match mapGet st.sessions tok with
    | none => false
    | some s => now < s.expires

/-- The User Store's `findByKey`: dereference the map entry of a key
(`this.users.get(key)` hands back the object itself). -/
def findByKey (st : ServiceState) (k : String) : Option StoredUser :=
  (mapGet st.users k).bind (heapGet st.heap)

/-- Service state after registering `d` on a fresh service at time `now` and
then updating the profile of the registered user with a new email. -/
def afterEmailChange (sha : String → String) (d : RegisterData) (now : Nat)
    (newEmail : String) : ServiceState :=
  (updateProfile (register sha initState d now).1 ("user_" ++ toString now)
     { email := some newEmail }).1

/-- Replacing the value of a present key in place makes the key resolve to
the new value. -/
theorem mapGet_map_replace {α : Type} (m : List (String × α)) (k : String)
    (v : α) (h : mapHas m k = true) :
    mapGet (m.map (fun p => if p.1 == k then (k, v) else p)) k = some v := by
  induction m with
  | nil => simp [mapHas] at h
  | cons p m ih =>
    by_cases hpk : p.1 = k
    · simp [mapGet, hpk]
    · have hm : mapHas m k = true := by
        simpa [mapHas, hpk] using h
      simpa [mapGet, hpk, mapHas] using ih hm

/-- A `Map.set` makes the key resolve to the new value. -/
theorem mapGet_mapSet_self {α : Type} (m : List (String × α)) (k : String)
    (v : α) : mapGet (mapSet m k v) k = some v := by
  by_cases h : mapHas m k = true
  · simpa [mapSet, h] using mapGet_map_replace m k v h
  · have h' : mapHas m k = false := by simpa using h
    have hfind : m.find? (fun p => p.1 == k) = none := by
      rcases hh : m.find? (fun p => p.1 == k) with _ | a
      · exact hh
      · exact absurd (by simp [mapHas, hh]) h
    simp [mapSet, h', mapGet, hfind]

/-- A `verifyOTP` against an absent entry returns `false`. -/
theorem verifyOTP_none (st : ServiceState) (t otp : String) (p : OTPType)
    (now : Nat) (h : mapGet st.otpStore t = none) :
    (verifyOTP st t otp p now).2 = false := by
  simp [verifyOTP, h]

/-- A `Map.delete` makes the key unresolvable. -/
theorem mapGet_mapDelete_self {α : Type} (m : List (String × α)) (k : String) :
    mapGet (mapDelete m k) k = none := by
  induction m with
  | nil => simp [mapGet, mapDelete]
  | cons p m ih =>
    by_cases hpk : p.1 = k
    · simp only [mapDelete, List.filter_cons] at ih ⊢
      simp only [hpk, beq_self_eq_true, Bool.not_true, Bool.false_eq_true,
        if_false]
      exact ih
    · simp only [mapDelete, List.filter_cons] at ih ⊢
      have hb : (!(p.1 == k)) = true := by simp [hpk]
      simp only [hb, if_true]
      simp only [mapGet] at ih ⊢
      rw [List.find?_cons_of_neg _ (by simp [hpk])]
      exact ih

/-- Reloading from storage never changes the persisted array itself. -/
theorem loadUsers_storedUsers (st : ServiceState) :
    (loadUsers st).storedUsers = st.storedUsers := by
  suffices h : ∀ (l : List StoredUser) (s : ServiceState),
      (List.foldl loadOne s l).storedUsers = s.storedUsers by
    exact h st.storedUsers st
  intro l
  induction l with
  | nil => intro s; rfl
  | cons u l ih => intro s; simpa [loadOne] using ih (loadOne s u)

/-- C9: the credential hasher round-trips: `hashPassword` is a function of
the secret (and the external digest), `verifyPassword s (hashPassword s)` is
`true` for every secret, and `verifyPassword` is a total Boolean comparison:
it returns `true` exactly when the candidate's hash equals the digest, so a
mismatch yields `false` rather than an error. -/
theorem hasher_round_trip (sha : String → String) (s d : String) :
    verifyPassword sha s (hashPassword sha s) = true ∧
    (verifyPassword sha s d = true ↔ hashPassword sha s = d) := by
  constructor
  · simp [verifyPassword]
  · simp [verifyPassword]

/-- C6: OTP codes are single-use: `sendOTP` returns the code it stored;
while the entry is unexpired, a first `verifyOTP` with the same target,
code and purpose returns `true` and deletes the entry, and a second
`verifyOTP` with the same target, code and purpose returns `false`. -/
theorem otp_single_use (st : ServiceState) (t : String) (p : OTPType)
    (now rand now2 now3 : Nat) (h2 : ¬ now2 > now + 300000) :
    (sendOTP st t p now rand).2.otp = some (generateOTP rand) ∧
    (verifyOTP (sendOTP st t p now rand).1 t (generateOTP rand) p now2).2
      = true ∧
    mapGet (verifyOTP (sendOTP st t p now rand).1 t (generateOTP rand) p
      now2).1.otpStore t = none ∧
    (verifyOTP (verifyOTP (sendOTP st t p now rand).1 t (generateOTP rand) p
      now2).1 t (generateOTP rand) p now3).2 = false := by
  have hget : mapGet (mapSet st.otpStore t
        ⟨generateOTP rand, now + 300000, p⟩) t
      = some ⟨generateOTP rand, now + 300000, p⟩ := mapGet_mapSet_self _ _ _
  refine ⟨by simp [sendOTP], ?_, ?_, ?_⟩
  · simp [verifyOTP, sendOTP, hget, h2]
  · simp [verifyOTP, sendOTP, hget, h2, mapGet_mapDelete_self]
  · have hdel : mapGet (verifyOTP (sendOTP st t p now rand).1 t
        (generateOTP rand) p now2).1.otpStore t = none := by
      simp [verifyOTP, sendOTP, hget, h2, mapGet_mapDelete_self]
    exact verifyOTP_none _ _ _ _ _ hdel

/-- C7: once more than five minutes have elapsed since issuance, `verifyOTP`
returns `false` even for the exactly matching code and purpose, and the
expired entry is deleted by that attempt. -/
theorem otp_expiry (st : ServiceState) (t : String) (p : OTPType)
    (now rand now2 : Nat) (h : now2 > now + 300000) :
    (verifyOTP (sendOTP st t p now rand).1 t (generateOTP rand) p now2).2
      = false ∧
    mapGet (verifyOTP (sendOTP st t p now rand).1 t (generateOTP rand) p
      now2).1.otpStore t = none := by
  have hget : mapGet (mapSet st.otpStore t
        ⟨generateOTP rand, now + 300000, p⟩) t
      = some ⟨generateOTP rand, now + 300000, p⟩ := mapGet_mapSet_self _ _ _
  constructor
  · simp [verifyOTP, sendOTP, hget, h]
  · simp [verifyOTP, sendOTP, hget, h, mapGet_mapDelete_self]

/-- C10: the OTP store is keyed by target alone: a still-live code issued for
`(t, p1)` would verify, but issuing a fresh OTP for the same target with a
different purpose `p2` overwrites the entry, after which the earlier code no
longer verifies for `p1`. -/
theorem otp_keyed_by_target_only (st : ServiceState) (t : String)
    (p1 p2 : OTPType) (now1 rand1 now2 rand2 now3 : Nat)
    (hp : p1 ≠ p2) (hlive : ¬ now3 > now1 + 300000) :
    (verifyOTP (sendOTP st t p1 now1 rand1).1 t (generateOTP rand1) p1
      now3).2 = true ∧
    (verifyOTP (sendOTP (sendOTP st t p1 now1 rand1).1 t p2 now2 rand2).1 t
      (generateOTP rand1) p1 now3).2 = false := by
  have hget1 : mapGet (mapSet st.otpStore t
        ⟨generateOTP rand1, now1 + 300000, p1⟩) t
      = some ⟨generateOTP rand1, now1 + 300000, p1⟩ := mapGet_mapSet_self _ _ _
  have hget2 : mapGet (mapSet (mapSet st.otpStore t
        ⟨generateOTP rand1, now1 + 300000, p1⟩) t
        ⟨generateOTP rand2, now2 + 300000, p2⟩) t
      = some ⟨generateOTP rand2, now2 + 300000, p2⟩ := mapGet_mapSet_self _ _ _
  constructor
  · simp [verifyOTP, sendOTP, hget1, hlive]
  · simp [verifyOTP, sendOTP, hget2, Ne.symm hp]

/-- C6 witness: the single-use property at a concrete target, purpose, code
and times. -/
theorem otp_single_use_witness :
    (sendOTP initState "a@x.com" OTPType.reset 2000 777).2.otp
      = some (generateOTP 777) ∧
    (verifyOTP (sendOTP initState "a@x.com" OTPType.reset 2000 777).1
      "a@x.com" (generateOTP 777) OTPType.reset 3000).2 = true ∧
    mapGet (verifyOTP (sendOTP initState "a@x.com" OTPType.reset 2000 777).1
      "a@x.com" (generateOTP 777) OTPType.reset 3000).1.otpStore "a@x.com"
      = none ∧
    (verifyOTP (verifyOTP (sendOTP initState "a@x.com" OTPType.reset 2000
      777).1 "a@x.com" (generateOTP 777) OTPType.reset 3000).1 "a@x.com"
      (generateOTP 777) OTPType.reset 4000).2 = false :=
  otp_single_use initState "a@x.com" OTPType.reset 2000 777 3000 4000
    (by decide)

/-- C7 witness: the expiry property at a concrete target, purpose, code and
times (issued at 2000, verified at 400000 > 302000). -/
theorem otp_expiry_witness :
    (verifyOTP (sendOTP initState "a@x.com" OTPType.reset 2000 777).1
      "a@x.com" (generateOTP 777) OTPType.reset 400000).2 = false ∧
    mapGet (verifyOTP (sendOTP initState "a@x.com" OTPType.reset 2000 777).1
      "a@x.com" (generateOTP 777) OTPType.reset 400000).1.otpStore "a@x.com"
      = none :=
  otp_expiry initState "a@x.com" OTPType.reset 2000 777 400000 (by decide)

/-- C10 witness: a register-purpose OTP is invalidated by a later
reset-purpose issue for the same target. -/
theorem otp_keyed_by_target_only_witness :
    (verifyOTP (sendOTP initState "a@x.com" OTPType.register 1000 111).1
      "a@x.com" (generateOTP 111) OTPType.register 3000).2 = true ∧
    (verifyOTP (sendOTP (sendOTP initState "a@x.com" OTPType.register 1000
      111).1 "a@x.com" OTPType.reset 2000 222).1 "a@x.com" (generateOTP 111)
      OTPType.register 3000).2 = false :=
  otp_keyed_by_target_only initState "a@x.com" OTPType.register OTPType.reset
    1000 111 2000 222 3000 (by decide) (by decide)

/-- C3: when the request's email or mobile already resolves in the (reloaded)
user store, `register` fails by throwing the duplicate error, and the store
is unchanged: the resulting state is exactly the reloaded input state — the
reload every operation performs first — and in particular the persisted
users array is exactly what it was before the call. -/
theorem register_duplicate_leaves_store_unchanged (sha : String → String)
    (st : ServiceState) (d : RegisterData) (now : Nat)
    (hdup : mapHas (loadUsers st).users d.email = true ∨
            mapHas (loadUsers st).users d.mobile = true) :
    (register sha st d now).2
      = Outcome.thrown "User already exists with this email or mobile number" ∧
    (register sha st d now).1 = loadUsers st ∧
    (register sha st d now).1.storedUsers = st.storedUsers := by
  have hcond : (mapHas (loadUsers st).users d.email
      || mapHas (loadUsers st).users d.mobile) = true := by
    rcases hdup with h | h <;> simp [h]
  refine ⟨?_, ?_, ?_⟩
  · simp [register, hcond]
  · simp [register, hcond]
  · simp [register, hcond, loadUsers_storedUsers]

/-- C3 witness: registering the same email a second time throws and leaves
the persisted store unchanged. -/
theorem register_duplicate_leaves_store_unchanged_witness :
    (register (fun s => s)
        (register (fun s => s) initState
          ⟨"Asha", "a@x.com", "9990001111", "pw1"⟩ 1000).1
        ⟨"Bela", "a@x.com", "9990002222", "pw2"⟩ 2000).2
      = Outcome.thrown "User already exists with this email or mobile number" ∧
    (register (fun s => s)
        (register (fun s => s) initState
          ⟨"Asha", "a@x.com", "9990001111", "pw1"⟩ 1000).1
        ⟨"Bela", "a@x.com", "9990002222", "pw2"⟩ 2000).1
      = loadUsers (register (fun s => s) initState
          ⟨"Asha", "a@x.com", "9990001111", "pw1"⟩ 1000).1 ∧
    (register (fun s => s)
        (register (fun s => s) initState
          ⟨"Asha", "a@x.com", "9990001111", "pw1"⟩ 1000).1
        ⟨"Bela", "a@x.com", "9990002222", "pw2"⟩ 2000).1.storedUsers
      = (register (fun s => s) initState
          ⟨"Asha", "a@x.com", "9990001111", "pw1"⟩ 1000).1.storedUsers :=
  register_duplicate_leaves_store_unchanged (fun s => s) _ _ 2000
    (Or.inl (by decide))

/-- C5: the observable outcome of `login` is identical when the identifier
does not resolve and when it resolves but the password digest mismatches:
both return the plain value `null` (no exception, no distinguishing tag),
and in both cases the state change is exactly the store reload. -/
theorem login_no_existence_leakage (sha : String → String)
    (st1 st2 : ServiceState) (cred1 cred2 : LoginData) (now1 now2 : Nat)
    (r : Nat) (u : StoredUser)
    (h1 : mapGet (loadUsers st1).users cred1.emailOrMobile = none)
    (h2 : mapGet (loadUsers st2).users cred2.emailOrMobile = some r)
    (h3 : heapGet (loadUsers st2).heap r = some u)
    (h4 : verifyPassword sha cred2.password u.hashedPassword = false) :
    (login sha st1 cred1 now1).2 = (login sha st2 cred2 now2).2 ∧
    (login sha st1 cred1 now1).2 = Outcome.value none ∧
    (login sha st1 cred1 now1).1 = loadUsers st1 ∧
    (login sha st2 cred2 now2).1 = loadUsers st2 := by
  refine ⟨?_, ?_, ?_, ?_⟩ <;> simp [login, h1, h2, h3, h4]

/-- C5 witness: a login for an unknown identifier and a login with a wrong
password for a registered user produce the same `null` outcome. -/
theorem login_no_existence_leakage_witness :
    (login (fun s => s) initState ⟨"nobody@x.com", "pw"⟩ 500).2
      = (login (fun s => s)
          (register (fun s => s) initState
            ⟨"Asha", "a@x.com", "9990001111", "pw1"⟩ 1000).1
          ⟨"a@x.com", "wrongpw"⟩ 2000).2 ∧
    (login (fun s => s) initState ⟨"nobody@x.com", "pw"⟩ 500).2
      = Outcome.value none ∧
    (login (fun s => s) initState ⟨"nobody@x.com", "pw"⟩ 500).1
      = loadUsers initState ∧
    (login (fun s => s)
        (register (fun s => s) initState
          ⟨"Asha", "a@x.com", "9990001111", "pw1"⟩ 1000).1
        ⟨"a@x.com", "wrongpw"⟩ 2000).1
      = loadUsers (register (fun s => s) initState
          ⟨"Asha", "a@x.com", "9990001111", "pw1"⟩ 1000).1 :=
  login_no_existence_leakage (fun s => s) initState _ _ _ 500 2000 1
    ⟨⟨"user_1000", "Asha", "a@x.com", "9990001111", true, 1000,
      MembershipType.Free, none, none, some 1000, some ⟨0, 0, 0⟩⟩,
      "pw1salt_key_2024"⟩
    (by decide) (by decide) (by decide) (by decide)

/-- C2: a login with valid credentials never creates a session at all: the
source computes the session TTL from the identifier `rememberMe`, which is
declared nowhere in `login`'s scope (`LoginData` has no such field), so the
call throws a `ReferenceError` after persisting `lastLoginDate` and before
`sessions.set` runs; here the concrete successful-credential login from a
fresh registration ends in the thrown error with the session registry still
empty, contradicting the claimed 24-hour/30-day session validity. -/
theorem login_throws_reference_error :
    (login (fun s => s)
        (register (fun s => s) initState
          ⟨"Asha", "a@x.com", "9990001111", "pw1"⟩ 1000).1
        ⟨"a@x.com", "pw1"⟩ 2000).2
      = Outcome.thrown "ReferenceError: rememberMe is not defined" ∧
    (login (fun s => s)
        (register (fun s => s) initState
          ⟨"Asha", "a@x.com", "9990001111", "pw1"⟩ 1000).1
        ⟨"a@x.com", "pw1"⟩ 2000).1.sessions = [] := by
  constructor
  · decide
  · decide

/-- C8: in the password-reset scenario the code delivers the first three
legs but not the last: after registering with `pw1`, requesting a reset OTP
for the email (code `100777`), and calling `resetPassword` with that code
and `pw2`, the reset succeeds and a login with `pw1` fails with the plain
`null` outcome — but the login with the new password `pw2` throws
`ReferenceError: rememberMe is not defined` instead of succeeding, because
the successful-credential path of `login` reads an undeclared identifier. -/
theorem reset_scenario_reference_error :
    (sendOTP (register (fun s => s) initState
        ⟨"Asha", "a@x.com", "9990001111", "pw1"⟩ 1000).1
        "a@x.com" OTPType.reset 2000 777).2.otp = some "100777" ∧
    (resetPassword (fun s => s)
        (sendOTP (register (fun s => s) initState
          ⟨"Asha", "a@x.com", "9990001111", "pw1"⟩ 1000).1
          "a@x.com" OTPType.reset 2000 777).1
        ⟨"a@x.com", "pw2", "100777"⟩ 3000).2 = true ∧
    (login (fun s => s)
        (resetPassword (fun s => s)
          (sendOTP (register (fun s => s) initState
            ⟨"Asha", "a@x.com", "9990001111", "pw1"⟩ 1000).1
            "a@x.com" OTPType.reset 2000 777).1
          ⟨"a@x.com", "pw2", "100777"⟩ 3000).1
        ⟨"a@x.com", "pw1"⟩ 4000).2 = Outcome.value none ∧
    (login (fun s => s)
        (resetPassword (fun s => s)
          (sendOTP (register (fun s => s) initState
            ⟨"Asha", "a@x.com", "9990001111", "pw1"⟩ 1000).1
            "a@x.com" OTPType.reset 2000 777).1
          ⟨"a@x.com", "pw2", "100777"⟩ 3000).1
        ⟨"a@x.com", "pw2"⟩ 5000).2
      = Outcome.thrown "ReferenceError: rememberMe is not defined" := by
  refine ⟨by decide, by decide, by decide, by decide⟩

/-- C4 counterexample: `register` raises an exception for the expected
business outcome of a duplicate identity — registering a second user with an
already-taken email throws `Error('User already exists with this email or
mobile number')` rather than returning a value or tagged failure. -/
theorem register_duplicate_throws_cx :
    (register (fun s => s)
        (register (fun s => s) initState
          ⟨"Asha", "a@x.com", "9990001111", "pw1"⟩ 1000).1
        ⟨"Chetan", "a@x.com", "9990003333", "pw3"⟩ 2000).2
      = Outcome.thrown "User already exists with this email or mobile number"
    := by decide

/-- C4 amended: `login` returns the plain value `null` for bad credentials
and `verifyOTP` returns the plain Boolean `false` for an expired OTP, but
`register` signals a duplicate identity by throwing an `Error` (which the
calling context is expected to catch), not by returning a tagged failure. -/
theorem business_outcome_signalling :
    (∀ (sha : String → String) (st : ServiceState) (d : RegisterData)
        (now : Nat), mapHas (loadUsers st).users d.email = true →
        (register sha st d now).2 = Outcome.thrown
          "User already exists with this email or mobile number") ∧
    (∀ (sha : String → String) (st : ServiceState) (cred : LoginData)
        (now : Nat), mapGet (loadUsers st).users cred.emailOrMobile = none →
        (login sha st cred now).2 = Outcome.value none) ∧
    (∀ (st : ServiceState) (t : String) (p : OTPType) (now rand now2 : Nat),
        now2 > now + 300000 →
        (verifyOTP (sendOTP st t p now rand).1 t (generateOTP rand) p
          now2).2 = false) := by
  refine ⟨?_, ?_, ?_⟩
  · intro sha st d now h
    simp [register, h]
  · intro sha st cred now h
    simp [login, h]
  · intro st t p now rand now2 h
    have hget : mapGet (mapSet st.otpStore t
          ⟨generateOTP rand, now + 300000, p⟩) t
        = some ⟨generateOTP rand, now + 300000, p⟩ := mapGet_mapSet_self _ _ _
    simp [verifyOTP, sendOTP, hget, h]

/-- C4 witness: a concrete bad-credential login returns the plain value
`null`. -/
theorem business_outcome_signalling_witness :
    (login (fun s => s) initState ⟨"ghost@x.com", "pw"⟩ 5).2
      = Outcome.value none :=
  business_outcome_signalling.2.1 (fun s => s) initState
    ⟨"ghost@x.com", "pw"⟩ 5 (by decide)

/-- C1 counterexample: after registering with email `a@x.com` and updating
the profile's email to `b@x.com`, the old email key still resolves in the
user store and the new email key does not resolve — `updateProfile` mutates
the shared record but never re-keys the map, contradicting the claim that
the old key stops resolving and the new one starts. -/
theorem updateProfile_stale_email_key_cx :
    (findByKey (afterEmailChange (fun s => s)
        ⟨"Asha", "a@x.com", "9990001111", "pw1"⟩ 1000 "b@x.com")
        "a@x.com").isSome = true ∧
    findByKey (afterEmailChange (fun s => s)
        ⟨"Asha", "a@x.com", "9990001111", "pw1"⟩ 1000 "b@x.com")
        "b@x.com" = none := by
  constructor
  · decide
  · decide

/-- C1 amended: after an update that changes the email field, the mobile key
still resolves to the record with the same id, and the updated record (with
the new email, same id) is persisted to storage; but the old email key still
resolves in the in-memory store to that same record (the stale map key is
never removed), and the new email key does not resolve until a later
operation reloads users from storage (after which it resolves to the same
record). -/
theorem updateProfile_email_change_key_behavior (sha : String → String)
    (d : RegisterData) (now : Nat) (newEmail : String)
    (h1 : d.email ≠ d.mobile) (h2 : newEmail ≠ d.email)
    (h3 : newEmail ≠ d.mobile) :
    findByKey (afterEmailChange sha d now newEmail) d.email
      = some { regStored sha d now with email := newEmail } ∧
    findByKey (afterEmailChange sha d now newEmail) d.mobile
      = some { regStored sha d now with email := newEmail } ∧
    findByKey (afterEmailChange sha d now newEmail) newEmail = none ∧
    (afterEmailChange sha d now newEmail).storedUsers
      = [{ regStored sha d now with email := newEmail }] ∧
    findByKey (loadUsers (afterEmailChange sha d now newEmail)) newEmail
      = some { regStored sha d now with email := newEmail } := by
  simp [afterEmailChange, register, updateProfile, loadUsers, loadOne,
    initState, mapHas, mapSet, mapGet, saveUsers, dedupById, heapGet,
    heapSet, findByKey, findEntryById, applyUpdates, projectUser, regStored,
    h1, h2, h3, Ne.symm h1, Ne.symm h2, Ne.symm h3, List.findSome?]

/-- C1 witness: the amended statement at the concrete registration data and
new email of the counterexample scenario. -/
theorem updateProfile_email_change_key_behavior_witness :
    findByKey (afterEmailChange (fun s => s)
        ⟨"Asha", "a@x.com", "9990001111", "pw1"⟩ 1000 "b@x.com") "a@x.com"
      = some { regStored (fun s => s)
          ⟨"Asha", "a@x.com", "9990001111", "pw1"⟩ 1000 with
          email := "b@x.com" } ∧
    findByKey (afterEmailChange (fun s => s)
        ⟨"Asha", "a@x.com", "9990001111", "pw1"⟩ 1000 "b@x.com") "9990001111"
      = some { regStored (fun s => s)
          ⟨"Asha", "a@x.com", "9990001111", "pw1"⟩ 1000 with
          email := "b@x.com" } ∧
    findByKey (afterEmailChange (fun s => s)
        ⟨"Asha", "a@x.com", "9990001111", "pw1"⟩ 1000 "b@x.com") "b@x.com"
      = none ∧
    (afterEmailChange (fun s => s)
        ⟨"Asha", "a@x.com", "9990001111", "pw1"⟩ 1000 "b@x.com").storedUsers
      = [{ regStored (fun s => s)
          ⟨"Asha", "a@x.com", "9990001111", "pw1"⟩ 1000 with
          email := "b@x.com" }] ∧
    findByKey (loadUsers (afterEmailChange (fun s => s)
        ⟨"Asha", "a@x.com", "9990001111", "pw1"⟩ 1000 "b@x.com")) "b@x.com"
      = some { regStored (fun s => s)
          ⟨"Asha", "a@x.com", "9990001111", "pw1"⟩ 1000 with
          email := "b@x.com" } :=
  updateProfile_email_change_key_behavior (fun s => s)
    ⟨"Asha", "a@x.com", "9990001111", "pw1"⟩ 1000 "b@x.com"
    (by decide) (by decide) (by decide)

end FortAS
